import Mathlib

/-!
Verification development for the AI Research System's Research Execution
Orchestration Engine: the redaction filter, the cost accountant, the
continuation-context builder, the session lifecycle state machine with its
retry policy, and ancestor-lineage traversal.  Each definition is a shallow
embedding of the corresponding Python source (src/research/services.py,
src/research/tasks.py, src/research/models.py, src/costs/services.py).
-/

set_option maxHeartbeats 1000000

namespace AIResearch

/-! ## JSON-like values

Python reasoning payloads are arbitrary nestings of dicts, lists and
scalars.  We embed them as a mutual inductive so that all recursion is
structural: `JFields` is an association list of string keys (a Python dict),
`JList` a Python list. -/

mutual
inductive JVal : Type where
| str : String → JVal
| int : Int → JVal
| bool : Bool → JVal
| null : JVal
| arr : JList → JVal
| obj : JFields → JVal
deriving DecidableEq, Repr

inductive JList : Type where
| nil : JList
| cons : JVal → JList → JList
deriving DecidableEq, Repr

inductive JFields : Type where
| nil : JFields
| cons : String → JVal → JFields → JFields
deriving DecidableEq, Repr
end

/-- A scalar (non-dict, non-list) value: passed through unchanged by the
recursive filter (`services.py:115-117`). -/
def JVal.isScalar : JVal → Bool
| .arr _ => false
| .obj _ => false
| _ => true

/-- Association-list lookup, mirroring Python dict key access. -/
def lookupField (k : String) : JFields → Option JVal
| .nil => none
| .cons k2 v rest => if k2 = k then some v else lookupField k rest

/-! ## Redaction Filter (`ReasoningService`, src/research/services.py) -/

/-- `ReasoningService.SENSITIVE_FIELDS` (services.py:40-54). -/
def SENSITIVE_FIELDS : List String :=
  ["raw_chain_of_thought", "internal_agent_communications", "debug_info",
   "tool_execution_logs", "raw_agent_thoughts", "sensitive_internal_data",
   "internal_structure", "agent_communications", "execution_trace",
   "nested_debug", "raw_thoughts", "planning_steps", "tool_calls"]

/-- `ReasoningService.USER_FRIENDLY_FIELDS` (services.py:57-65). -/
def USER_FRIENDLY_FIELDS : List String :=
  ["research_brief", "methodology", "approach", "summary",
   "key_findings", "sources_consulted", "research_steps"]

/-- `ReasoningService._is_safe_field_name` (services.py:119-130). -/
def is_safe_field_name (field_name : String) : Bool :=
  USER_FRIENDLY_FIELDS.contains field_name

mutual
/-- `ReasoningService._filter_value_recursively` (services.py:97-117). -/
def filter_value_recursively : JVal → JVal
| .obj fs => .obj (filterDictItems fs)
| .arr xs => .arr (filterListItems xs)
| v => v

/-- The dict branch of `_filter_value_recursively` (services.py:107-112). -/
def filterDictItems : JFields → JFields
| .nil => .nil
| .cons k v rest =>
  if !SENSITIVE_FIELDS.contains k && is_safe_field_name k then
    .cons k (filter_value_recursively v) (filterDictItems rest)
  else
    filterDictItems rest

/-- The list branch of `_filter_value_recursively` (services.py:113-114). -/
def filterListItems : JList → JList
| .nil => .nil
| .cons v rest => .cons (filter_value_recursively v) (filterListItems rest)
end

/-- The per-key loop of `ReasoningService.filter_reasoning_for_user`
(services.py:82-94): sensitive keys are skipped, user-friendly keys are kept
after recursive filtering, and remaining keys are kept only when
`_is_safe_field_name` approves them. -/
def filterTopFields : JFields → JFields
| .nil => .nil
| .cons k v rest =>
  if SENSITIVE_FIELDS.contains k then
    filterTopFields rest
  else if USER_FRIENDLY_FIELDS.contains k then
    .cons k (filter_value_recursively v) (filterTopFields rest)
  else if !SENSITIVE_FIELDS.contains k && is_safe_field_name k then
    .cons k (filter_value_recursively v) (filterTopFields rest)
  else
    filterTopFields rest

/-- Python falsiness of a reasoning payload: `None` or the empty dict. -/
def reasoningFalsy : Option JFields → Bool
| none => true
| some .nil => true
| some (.cons _ _ _) => false

/-- `ReasoningService.filter_reasoning_for_user` (services.py:67-95). -/
def filter_reasoning_for_user (reasoning_data : Option JFields) : JFields :=
  match reasoning_data with
  | none => .nil
  | some fs => if reasoningFalsy (some fs) then .nil else filterTopFields fs

mutual
/-- Every dict key occurring anywhere inside the value is allow-listed. -/
def allKeysAllowed : JVal → Bool
| .obj fs => allKeysAllowedFields fs
| .arr xs => allKeysAllowedList xs
| _ => true

def allKeysAllowedFields : JFields → Bool
| .nil => true
| .cons k v rest =>
  USER_FRIENDLY_FIELDS.contains k && allKeysAllowed v && allKeysAllowedFields rest

def allKeysAllowedList : JList → Bool
| .nil => true
| .cons v rest => allKeysAllowed v && allKeysAllowedList rest
end

mutual
/-- The scalar `s` occurs somewhere inside the value, through any path. -/
def occursIn (s : JVal) : JVal → Bool
| .obj fs => occursInFields s fs
| .arr xs => occursInList s xs
| v => v == s

def occursInFields (s : JVal) : JFields → Bool
| .nil => false
| .cons _ v rest => occursIn s v || occursInFields s rest

def occursInList (s : JVal) : JList → Bool
| .nil => false
| .cons v rest => occursIn s v || occursInList s rest
end

mutual
/-- The scalar `s` occurs inside the value through a path all of whose dict
keys are allow-listed (list positions unconstrained). -/
def occursAllowed (s : JVal) : JVal → Bool
| .obj fs => occursAllowedFields s fs
| .arr xs => occursAllowedList s xs
| v => v == s

def occursAllowedFields (s : JVal) : JFields → Bool
| .nil => false
| .cons k v rest =>
  (USER_FRIENDLY_FIELDS.contains k && occursAllowed s v) || occursAllowedFields s rest

def occursAllowedList (s : JVal) : JList → Bool
| .nil => false
| .cons v rest => occursAllowed s v || occursAllowedList s rest
end

theorem band_right {a b : Bool} (h : (a && b) = true) : b = true := by
  cases a <;> cases b <;> simp_all

theorem contains_mem {k : String} {l : List String}
    (h : l.contains k = true) : k ∈ l := by
  simpa using h

theorem friendly_not_sensitive (k : String)
    (h : USER_FRIENDLY_FIELDS.contains k = true) :
    SENSITIVE_FIELDS.contains k = false := by
  have hm : k ∈ USER_FRIENDLY_FIELDS := contains_mem h
  fin_cases hm <;> decide

theorem filter_reasoning_eq_filterTop (fs : JFields) :
    filter_reasoning_for_user (some fs) = filterTopFields fs := by
  cases fs with
  | nil => rfl
  | cons k v rest => rfl

theorem filter_value_scalar (v : JVal) (h : v.isScalar = true) :
    filter_value_recursively v = v := by
  cases v <;> first
  | rfl
  | simp [JVal.isScalar] at h

mutual
theorem allKeysAllowed_filter : (v : JVal) →
    allKeysAllowed (filter_value_recursively v) = true
| .str s => rfl
| .int n => rfl
| .bool b => rfl
| .null => rfl
| .obj fs =>
    have ih := allKeysAllowedFields_filterDict fs
    by simpa [filter_value_recursively, allKeysAllowed] using ih
| .arr xs =>
    have ih := allKeysAllowedList_filterList xs
    by simpa [filter_value_recursively, allKeysAllowed] using ih

theorem allKeysAllowedFields_filterDict : (fs : JFields) →
    allKeysAllowedFields (filterDictItems fs) = true
| .nil => rfl
| .cons k v rest =>
    have ih := allKeysAllowedFields_filterDict rest
    have ihv := allKeysAllowed_filter v
    by
      unfold filterDictItems
      split
      · rename_i hc
        have hsafe : is_safe_field_name k = true := band_right hc
        simp only [is_safe_field_name] at hsafe
        simp [allKeysAllowedFields, ih, ihv, contains_mem hsafe]
      · exact ih

theorem allKeysAllowedList_filterList : (xs : JList) →
    allKeysAllowedList (filterListItems xs) = true
| .nil => rfl
| .cons v rest =>
    have ih := allKeysAllowedList_filterList rest
    have ihv := allKeysAllowed_filter v
    by simp [filterListItems, allKeysAllowedList, ih, ihv]
end

theorem allKeysAllowed_filterTop : (fs : JFields) →
    allKeysAllowedFields (filterTopFields fs) = true
| .nil => rfl
| .cons k v rest =>
    have ih := allKeysAllowed_filterTop rest
    have ihv := allKeysAllowed_filter v
    by
      unfold filterTopFields
      split
      · exact ih
      · split
        · rename_i hns hf
          simp [allKeysAllowedFields, ih, ihv, contains_mem hf]
        · split
          · rename_i hns hnf hc
            have hsafe : is_safe_field_name k = true := band_right hc
            simp only [is_safe_field_name] at hsafe
            simp [allKeysAllowedFields, ih, ihv, contains_mem hsafe]
          · exact ih

mutual
theorem occursIn_filter_value : (s : JVal) → (v : JVal) →
    occursIn s (filter_value_recursively v) = true → occursAllowed s v = true
| s, .str t => fun h => h
| s, .int n => fun h => h
| s, .bool b => fun h => h
| s, .null => fun h => h
| s, .obj fs => fun h =>
    have ih := occursIn_filterDict s fs
    by
      simp only [filter_value_recursively, occursIn] at h
      simpa [occursAllowed] using ih h
| s, .arr xs => fun h =>
    have ih := occursIn_filterList s xs
    by
      simp only [filter_value_recursively, occursIn] at h
      simpa [occursAllowed] using ih h

theorem occursIn_filterDict : (s : JVal) → (fs : JFields) →
    occursInFields s (filterDictItems fs) = true → occursAllowedFields s fs = true
| s, .nil => fun h => h
| s, .cons k v rest => fun h =>
    have ih := occursIn_filterDict s rest
    have ihv := occursIn_filter_value s v
    by
      unfold filterDictItems at h
      split at h
      · rename_i hc
        have hsafe : is_safe_field_name k = true := band_right hc
        simp only [is_safe_field_name] at hsafe
        simp only [occursInFields, Bool.or_eq_true] at h
        simp only [occursAllowedFields, Bool.or_eq_true, Bool.and_eq_true]
        rcases h with h | h
        · exact Or.inl ⟨hsafe, ihv h⟩
        · exact Or.inr (ih h)
      · simp only [occursAllowedFields, Bool.or_eq_true]
        exact Or.inr (ih h)

theorem occursIn_filterList : (s : JVal) → (xs : JList) →
    occursInList s (filterListItems xs) = true → occursAllowedList s xs = true
| s, .nil => fun h => h
| s, .cons v rest => fun h =>
    have ih := occursIn_filterList s rest
    have ihv := occursIn_filter_value s v
    by
      simp only [filterListItems, occursInList, Bool.or_eq_true] at h
      rcases h with h | h
      · simp [occursAllowedList, ihv h]
      · simp [occursAllowedList, ih h]
end

theorem occursIn_filterTop : (s : JVal) → (fs : JFields) →
    occursInFields s (filterTopFields fs) = true → occursAllowedFields s fs = true
| s, .nil => fun h => h
| s, .cons k v rest => fun h =>
    have ih := occursIn_filterTop s rest
    have ihv := occursIn_filter_value s v
    by
      unfold filterTopFields at h
      simp only [occursAllowedFields, Bool.or_eq_true, Bool.and_eq_true]
      split at h
      · exact Or.inr (ih h)
      · split at h
        · rename_i hns hf
          simp only [occursInFields, Bool.or_eq_true] at h
          rcases h with h | h
          · exact Or.inl ⟨hf, ihv h⟩
          · exact Or.inr (ih h)
        · split at h
          · rename_i hns hnf hc
            have hsafe : is_safe_field_name k = true := band_right hc
            simp only [is_safe_field_name] at hsafe
            simp only [occursInFields, Bool.or_eq_true] at h
            rcases h with h | h
            · exact Or.inl ⟨hsafe, ihv h⟩
            · exact Or.inr (ih h)
          · exact Or.inr (ih h)

theorem lookup_filterTop (k : String) (v : JVal) :
    (fs : JFields) → USER_FRIENDLY_FIELDS.contains k = true →
    v.isScalar = true → lookupField k fs = some v →
    lookupField k (filterTopFields fs) = some v
| .nil, _, _, hl => by simp [lookupField] at hl
| .cons k2 v2 rest, hk, hs, hl => by
    have ih := lookup_filterTop k v rest hk hs
    unfold lookupField at hl
    split at hl
    · rename_i heq
      subst heq
      injection hl with hv2
      subst hv2
      have hns : SENSITIVE_FIELDS.contains k2 = false := friendly_not_sensitive k2 hk
      unfold filterTopFields
      rw [hns, hk]
      simp [lookupField, filter_value_scalar _ hs]
    · rename_i hne
      have hrec := ih hl
      unfold filterTopFields
      split
      · exact hrec
      · split
        · simp only [lookupField]
          rw [if_neg hne]
          exact hrec
        · split
          · simp only [lookupField]
            rw [if_neg hne]
            exact hrec
          · exact hrec

/-- C1: the Redaction Filter's output only ever contains allow-listed keys
(at every nesting depth); every scalar appearing in the output occurs in the
input along a path whose dict keys are all allow-listed (so a value reachable
in the input only via a non-allow-listed key cannot appear in the output);
and an allow-listed key bound to a scalar value is preserved with that value
unchanged. -/
theorem redaction_filter_allowlist (fs : JFields) :
    allKeysAllowedFields (filter_reasoning_for_user (some fs)) = true ∧
    (∀ s : JVal, occursInFields s (filter_reasoning_for_user (some fs)) = true →
      occursAllowedFields s fs = true) ∧
    (∀ (k : String) (v : JVal), USER_FRIENDLY_FIELDS.contains k = true →
      v.isScalar = true → lookupField k fs = some v →
      lookupField k (filter_reasoning_for_user (some fs)) = some v) := by
  rw [filter_reasoning_eq_filterTop]
  refine ⟨allKeysAllowed_filterTop fs, ?_, ?_⟩
  · intro s h
    exact occursIn_filterTop s fs h
  · intro k v hk hs hl
    exact lookup_filterTop k v fs hk hs hl

/-- Concrete instantiation of `redaction_filter_allowlist`: a reasoning dict
with an allow-listed brief, a sensitive raw-thoughts field, and a nested
sensitive field under an allow-listed key. -/
theorem redaction_filter_allowlist_witness :
    allKeysAllowedFields (filter_reasoning_for_user (some
      (.cons "research_brief" (.str "b")
        (.cons "raw_thoughts" (.str "secret")
          (.cons "key_findings" (.obj (.cons "debug_info" (.str "hidden")
            (.cons "summary" (.str "ok") .nil))) .nil))))) = true ∧
    occursAllowedFields (.str "ok")
      (.cons "research_brief" (.str "b")
        (.cons "raw_thoughts" (.str "secret")
          (.cons "key_findings" (.obj (.cons "debug_info" (.str "hidden")
            (.cons "summary" (.str "ok") .nil))) .nil))) = true ∧
    lookupField "research_brief" (filter_reasoning_for_user (some
      (.cons "research_brief" (.str "b")
        (.cons "raw_thoughts" (.str "secret")
          (.cons "key_findings" (.obj (.cons "debug_info" (.str "hidden")
            (.cons "summary" (.str "ok") .nil))) .nil))))) = some (.str "b") := by
  refine ⟨(redaction_filter_allowlist _).1, ?_, ?_⟩
  · exact (redaction_filter_allowlist _).2.1 (.str "ok") (by decide)
  · exact (redaction_filter_allowlist _).2.2 "research_brief" (.str "b")
      (by decide) (by decide) (by decide)

/-! ## Session lifecycle (src/research/models.py, src/research/tasks.py)

Timestamps are abstracted as natural numbers (`timezone.now()` becomes an
explicit clock parameter).  Sessions are identified by string ids; the
session store is a key-addressed map. -/

inductive Status : Type where
| PENDING
| PROCESSING
| COMPLETED
| FAILED
| CANCELLED
deriving DecidableEq, Repr

/-- `session.report` payload (`{"final_report": ..., "notes": ..., "sources": []}`,
tasks.py:85-89). -/
structure Report where
  final_report : String
  notes : List String
deriving DecidableEq, Repr

/-- `ResearchSession` (models.py:10-109), restricted to the fields the
orchestrator reads or writes. -/
structure Session where
  user_id : String
  query : String
  status : Status
  report : Option Report
  summary : String
  reasoning : Option JFields
  parent_session : Option String
  langsmith_trace_id : Option String
  completed_at : Option Nat
deriving DecidableEq, Repr

/-- Session creation by the API layer: status defaults to PENDING, all
result fields empty (models.py:28-62). -/
def newSession (user_id query : String) : Session :=
  { user_id := user_id, query := query, status := .PENDING, report := none,
    summary := "", reasoning := none, parent_session := none,
    langsmith_trace_id := none, completed_at := none }

/-- The `session.status = 'PROCESSING'; session.save(...)` write at the top
of `execute_research_task` (tasks.py:38-40).  Note it does not touch
`completed_at`. -/
def toProcessing (s : Session) : Session :=
  { s with status := .PROCESSING }

/-- `ResearchSession.mark_completed` (models.py:97-101). -/
def mark_completed (t : Nat) (s : Session) : Session :=
  { s with status := .COMPLETED, completed_at := some t }

/-- `ResearchSession.mark_failed` (models.py:103-109): the error message is
stored into `reasoning` only when it is non-empty and the existing reasoning
is falsy (`None` or the empty dict). -/
def mark_failed (t : Nat) (error_message : String) (s : Session) : Session :=
  let s1 := { s with status := Status.FAILED, completed_at := some t }
  if error_message ≠ "" ∧ reasoningFalsy s.reasoning = true then
    { s1 with reasoning := some (.cons "error" (.str error_message) .nil) }
  else
    s1

def strJList : List String → JList
| [] => .nil
| x :: rest => .cons (.str x) (strJList rest)

/-- The raw reasoning dict persisted on engine success (tasks.py:93-105).
`tool_execution_logs` comes from `result.get("tool_calls", [])`, which is
always `[]` because the service result dict has no such key. -/
def successReasoning (research_brief : String) (raw_notes messages : List String)
    (trace_id : Option String) : JFields :=
  .cons "research_brief" (.str research_brief)
  (.cons "methodology" (.str "Open Deep Research with LangSmith tracing")
  (.cons "raw_notes" (.arr (strJList raw_notes))
  (.cons "internal_agent_communications" (.arr (strJList messages))
  (.cons "tool_execution_logs" (.arr .nil)
  (.cons "langsmith_trace_info"
    (.obj (.cons "trace_id"
            (match trace_id with | some tid => .str tid | none => .null)
          (.cons "tracing_enabled" (.bool true) .nil)))
    .nil)))))

/-- The success-path session update (tasks.py:81-120): status COMPLETED with
a completion timestamp, report persisted, summary taken from the returned
brief or else a 500-character prefix of the final report, raw reasoning
stored, trace id captured when present. -/
def completeSuccess (t : Nat) (final_report research_brief : String)
    (notes raw_notes messages : List String) (trace_id : Option String)
    (s : Session) : Session :=
  { s with
    status := .COMPLETED
    completed_at := some t
    report := some { final_report := final_report, notes := notes }
    summary := if research_brief ≠ "" then research_brief else final_report.take 500
    reasoning := some (successReasoning research_brief raw_notes messages trace_id)
    langsmith_trace_id := trace_id }

/-- Outcome of one call through the service boundary
(`research_service.execute_research`, invoked at tasks.py:70-76):
`ok`/`err` are the structured results the service returns, `raises` models
the call itself raising into the task's outer exception handler. -/
inductive EngineOutcome : Type where
| ok (final_report research_brief : String) (notes raw_notes messages : List String)
    (trace_id : Option String)
| err (msg : String)
| raises (msg : String)

/-- The dictionary `execute_research_task` returns (tasks.py:153-203),
restricted to the keys the spec talks about. -/
structure ExecResult where
  success : Bool
  session_id : Option String
  error : Option String
deriving DecidableEq, Repr

def SessionStore : Type := String → Option Session

def putSession (store : SessionStore) (session_id : String) (s : Session) : SessionStore :=
  fun k => if k = session_id then some s else store k

/-- `execute_research_task` (tasks.py:16-203) together with Celery's retry
driver: `max_retries = 3`; an exception escaping the service call marks the
session failed and, while `retries < max_retries`, re-enters the task with
the retry counter incremented; once retries are exhausted the final failure
result cites the retry count.  The third component counts the retries
performed.  The engine outcome is a parameter (one fixed behaviour per
run), the clock advances by one per attempt. -/
def execute_research_task (engine : EngineOutcome) (max_retries retries t : Nat)
    (store : SessionStore) (session_id : String) :
    SessionStore × ExecResult × Nat :=
  match store session_id with
  | none =>
    (store, { success := false, session_id := none,
              error := some "Research session not found" }, 0)
  | some s =>
    let s1 := toProcessing s
    let store1 := putSession store session_id s1
    match engine with
    | .ok final_report research_brief notes raw_notes messages trace_id =>
      let s2 := completeSuccess t final_report research_brief notes raw_notes
                  messages trace_id s1
      (putSession store1 session_id s2,
       { success := true, session_id := some session_id, error := none }, 0)
    | .err msg =>
      let s2 := mark_failed t msg s1
      (putSession store1 session_id s2,
       { success := false, session_id := some session_id, error := some msg }, 0)
    | .raises msg =>
      let s2 := mark_failed t ("Task execution error: " ++ msg) s1
      let store2 := putSession store1 session_id s2
      if h : retries < max_retries then
        let out := execute_research_task engine max_retries (retries + 1) (t + 1)
                     store2 session_id
        (out.1, out.2.1, out.2.2 + 1)
      else
        (store2,
         { success := false, session_id := some session_id,
           error := some ("Task failed after " ++ toString max_retries ++
                          " retries: " ++ msg) }, 0)
termination_by max_retries - retries
decreasing_by omega

/-- `cleanup_failed_sessions` sweeps one stuck PROCESSING session
(tasks.py:206-228). -/
def sweepStuck (t : Nat) (s : Session) : Session :=
  mark_failed t "Session timeout - processing took too long" s

/-- Session states reachable through the core's operations: creation as
PENDING, the PROCESSING write at the top of `execute_research_task`, the
success-path completion, `mark_completed`, `mark_failed` (engine failure,
task exception, retry re-entry), and the reaper sweep of a PROCESSING
session.  No code path writes CANCELLED. -/
inductive Reachable : Session → Prop where
| created (user_id query : String) : Reachable (newSession user_id query)
| processing {s : Session} : Reachable s → Reachable (toProcessing s)
| completed {s : Session} (t : Nat) (final_report research_brief : String)
    (notes raw_notes messages : List String) (trace_id : Option String) :
    Reachable s →
    Reachable (completeSuccess t final_report research_brief notes raw_notes
                messages trace_id s)
| marked_completed {s : Session} (t : Nat) :
    Reachable s → Reachable (mark_completed t s)
| failed {s : Session} (t : Nat) (msg : String) :
    Reachable s → Reachable (mark_failed t msg s)
| swept {s : Session} (t : Nat) :
    s.status = .PROCESSING → Reachable s → Reachable (sweepStuck t s)

theorem mark_failed_status (t : Nat) (m : String) (s : Session) :
    (mark_failed t m s).status = .FAILED := by
  unfold mark_failed
  split <;> rfl

theorem mark_failed_completed_at (t : Nat) (m : String) (s : Session) :
    (mark_failed t m s).completed_at = some t := by
  unfold mark_failed
  split <;> rfl

theorem putSession_self (store : SessionStore) (session_id : String) (s : Session) :
    putSession store session_id s session_id = some s := by
  simp [putSession]

/-- C9: executing with a session id that resolves to no stored session
returns a structured failure naming "Research session not found", leaves the
store unchanged (so no session is created and no status transition happens),
and performs no retries. -/
theorem execute_not_found (engine : EngineOutcome) (max_retries retries t : Nat)
    (store : SessionStore) (session_id : String)
    (h : store session_id = none) :
    execute_research_task engine max_retries retries t store session_id =
      (store, { success := false, session_id := none,
                error := some "Research session not found" }, 0) := by
  unfold execute_research_task
  rw [h]

/-- Concrete instantiation of `execute_not_found` on an empty store. -/
theorem execute_not_found_witness :
    execute_research_task (.err "x") 3 0 0 (fun _ => none) "no-such-id" =
      ((fun _ => none : SessionStore),
       { success := false, session_id := none,
         error := some "Research session not found" }, 0) :=
  execute_not_found (.err "x") 3 0 0 (fun _ => none) "no-such-id" rfl

/-- One step of the engine-failure branch of `execute_research_task`
(tasks.py:171-181): the session is moved to PROCESSING, then `mark_failed`
runs with the engine's error text, and the failure result is returned. -/
theorem execute_err_run (max_retries retries t : Nat) (store : SessionStore)
    (session_id msg : String) (s : Session) (h : store session_id = some s) :
    execute_research_task (.err msg) max_retries retries t store session_id =
      (putSession (putSession store session_id (toProcessing s)) session_id
         (mark_failed t msg (toProcessing s)),
       { success := false, session_id := some session_id, error := some msg }, 0) := by
  unfold execute_research_task
  rw [h]

/-- C3 (amended): on an explicit engine error result the session transitions
to FAILED with its completion timestamp set and the failure result carries
the engine's error text; the error text is stored under the `error` key of
the session's reasoning only when it is non-empty and the session's
reasoning was previously absent or empty — otherwise the existing reasoning
is left unchanged. -/
theorem engine_failure_marks_failed (max_retries retries t : Nat)
    (store : SessionStore) (session_id msg : String) (s : Session)
    (h : store session_id = some s) :
    (execute_research_task (.err msg) max_retries retries t store session_id).1
        session_id = some (mark_failed t msg (toProcessing s)) ∧
    (mark_failed t msg (toProcessing s)).status = .FAILED ∧
    (mark_failed t msg (toProcessing s)).completed_at = some t ∧
    (execute_research_task (.err msg) max_retries retries t store session_id).2 =
      ({ success := false, session_id := some session_id, error := some msg }, 0) ∧
    ((msg ≠ "" ∧ reasoningFalsy s.reasoning = true) →
      (mark_failed t msg (toProcessing s)).reasoning =
        some (.cons "error" (.str msg) .nil)) ∧
    (¬ (msg ≠ "" ∧ reasoningFalsy s.reasoning = true) →
      (mark_failed t msg (toProcessing s)).reasoning = s.reasoning) := by
  refine ⟨?_, mark_failed_status t msg _, mark_failed_completed_at t msg _, ?_, ?_, ?_⟩
  · rw [execute_err_run max_retries retries t store session_id msg s h]
    exact putSession_self _ _ _
  · rw [execute_err_run max_retries retries t store session_id msg s h]
  · intro hc
    unfold mark_failed
    rw [if_pos (by simpa [toProcessing] using hc)]
  · intro hc
    unfold mark_failed
    rw [if_neg (by simpa [toProcessing] using hc)]
    simp [toProcessing]

/-- A store holding one session that already carries reasoning from an
earlier failed attempt (the Celery retry path re-enters `execute` on such a
session). -/
def preFailedStore : SessionStore :=
  fun k =>
    if k = "s1"
    then some (mark_failed 1 "Task execution error: down" (newSession "u1" "q1"))
    else none

/-- C3 counterexample: when the session's reasoning is already non-empty
(here: set by `mark_failed` during a previous attempt), an explicit engine
error result does NOT store the engine's error text in `reasoning.error` —
the old message is left in place, refuting the claim that the engine's error
text is always stored verbatim. -/
theorem engine_error_not_stored_counterexample :
    ((execute_research_task (.err "engine broke") 3 0 2 preFailedStore "s1").1
        "s1").map (fun s2 => lookupField "error" (s2.reasoning.getD .nil)) =
      some (some (.str "Task execution error: down")) ∧
    JVal.str "Task execution error: down" ≠ JVal.str "engine broke" := by
  constructor
  · rw [execute_err_run 3 0 2 preFailedStore "s1" "engine broke"
        (mark_failed 1 "Task execution error: down" (newSession "u1" "q1")) rfl]
    decide
  · decide

/-- Concrete instantiation of `engine_failure_marks_failed`: fresh session,
non-empty engine error — the error text is stored verbatim. -/
theorem engine_failure_marks_failed_witness :
    (execute_research_task (.err "engine broke") 3 0 2
        (fun k => if k = "s9" then some (newSession "u" "q") else none) "s9").1
        "s9" = some (mark_failed 2 "engine broke" (toProcessing (newSession "u" "q"))) ∧
    (mark_failed 2 "engine broke" (toProcessing (newSession "u" "q"))).reasoning =
      some (.cons "error" (.str "engine broke") .nil) := by
  refine ⟨(engine_failure_marks_failed 3 0 2 _ "s9" "engine broke" _ rfl).1, ?_⟩
  exact (engine_failure_marks_failed 3 0 2
      (fun k => if k = "s9" then some (newSession "u" "q") else none) "s9"
      "engine broke" (newSession "u" "q") rfl).2.2.2.2.1 (by decide)

/-- Closed form of a run in which the service call raises on every attempt:
each attempt marks the session failed; retries are performed while
`retries < max_retries`; the final result cites the retry bound. -/
theorem execute_raises_eq (msg : String) (max_retries : Nat) :
    ∀ (n retries t : Nat) (store : SessionStore) (session_id : String) (s : Session),
    n = max_retries - retries → store session_id = some s →
    ∃ (store2 : SessionStore) (s2 : Session) (t2 : Nat),
      execute_research_task (.raises msg) max_retries retries t store session_id =
        (store2,
         { success := false, session_id := some session_id,
           error := some ("Task failed after " ++ toString max_retries ++
                          " retries: " ++ msg) },
         max_retries - retries) ∧
      store2 session_id = some s2 ∧ s2.status = .FAILED ∧
      s2.completed_at = some t2 := by
  intro n
  induction n with
  | zero =>
    intro retries t store session_id s hn h
    have hge : ¬ retries < max_retries := by omega
    refine ⟨putSession (putSession store session_id (toProcessing s)) session_id
        (mark_failed t ("Task execution error: " ++ msg) (toProcessing s)),
      mark_failed t ("Task execution error: " ++ msg) (toProcessing s), t, ?_,
      putSession_self _ _ _, mark_failed_status _ _ _, mark_failed_completed_at _ _ _⟩
    unfold execute_research_task
    rw [h]
    simp only [dif_neg hge]
    have hz : max_retries - retries = 0 := by omega
    rw [hz]
  | succ n ih =>
    intro retries t store session_id s hn h
    have hlt : retries < max_retries := by omega
    obtain ⟨store2, s2, t2, heq, h1, h2, h3⟩ :=
      ih (retries + 1) (t + 1)
        (putSession (putSession store session_id (toProcessing s)) session_id
          (mark_failed t ("Task execution error: " ++ msg) (toProcessing s)))
        session_id
        (mark_failed t ("Task execution error: " ++ msg) (toProcessing s))
        (by omega) (putSession_self _ _ _)
    refine ⟨store2, s2, t2, ?_, h1, h2, h3⟩
    unfold execute_research_task
    rw [h]
    simp only [dif_pos hlt]
    rw [heq]
    have harith : max_retries - (retries + 1) + 1 = max_retries - retries := by omega
    rw [harith]

/-- C4: with a service call that raises `Exception("boom")` on every
attempt, the task performs exactly 3 retries (the third result component),
the session ends FAILED with a completion timestamp, and the returned
failure result's error message cites the 3 retries and contains "boom". -/
theorem always_raising_engine_retried_three_times (t : Nat)
    (store : SessionStore) (session_id : String) (s : Session)
    (h : store session_id = some s) :
    ∃ (store2 : SessionStore) (s2 : Session) (t2 : Nat),
      execute_research_task (.raises "boom") 3 0 t store session_id =
        (store2,
         { success := false, session_id := some session_id,
           error := some "Task failed after 3 retries: boom" }, 3) ∧
      store2 session_id = some s2 ∧ s2.status = .FAILED ∧
      s2.completed_at = some t2 ∧
      ∃ pre post, "Task failed after 3 retries: boom" = pre ++ "boom" ++ post := by
  obtain ⟨store2, s2, t2, heq, h1, h2, h3⟩ :=
    execute_raises_eq "boom" 3 3 0 t store session_id s (by omega) h
  refine ⟨store2, s2, t2, ?_, h1, h2, h3, "Task failed after 3 retries: ", "", by rfl⟩
  rw [heq]
  rfl

/-- Concrete instantiation of `always_raising_engine_retried_three_times`
on a store holding one PENDING session with query "What is entropy?". -/
theorem always_raising_engine_witness :
    ∃ (store2 : SessionStore) (s2 : Session) (t2 : Nat),
      execute_research_task (.raises "boom") 3 0 10
          (fun k => if k = "s1" then some (newSession "u1" "What is entropy?") else none)
          "s1" =
        (store2,
         { success := false, session_id := some "s1",
           error := some "Task failed after 3 retries: boom" }, 3) ∧
      store2 "s1" = some s2 ∧ s2.status = .FAILED ∧ s2.completed_at = some t2 ∧
      ∃ pre post, "Task failed after 3 retries: boom" = pre ++ "boom" ++ post :=
  always_raising_engine_retried_three_times 10
    (fun k => if k = "s1" then some (newSession "u1" "What is entropy?") else none)
    "s1" (newSession "u1" "What is entropy?") rfl

/-- C8 (amended): in every reachable session state, a terminal status
(COMPLETED, FAILED or CANCELLED) implies the completion timestamp is set.
The converse fails on retry re-entry (see the counterexample). -/
theorem reachable_terminal_has_completed_at {s : Session} (hr : Reachable s) :
    (s.status = .COMPLETED ∨ s.status = .FAILED ∨ s.status = .CANCELLED) →
    s.completed_at ≠ none := by
  induction hr with
  | created u q =>
    intro hterm
    rcases hterm with h | h | h <;> simp [newSession] at h
  | processing _ _ =>
    intro hterm
    rcases hterm with h | h | h <;> simp [toProcessing] at h
  | completed t fr rb ns rns ms tid _ _ =>
    intro _
    simp [completeSuccess]
  | marked_completed t _ _ =>
    intro _
    simp [mark_completed]
  | failed t msg _ _ =>
    intro _
    rw [mark_failed_completed_at]
    simp
  | swept t _ _ _ =>
    intro _
    unfold sweepStuck
    rw [mark_failed_completed_at]
    simp

/-- Concrete instantiation of `reachable_terminal_has_completed_at` at a
freshly failed session. -/
theorem reachable_terminal_witness :
    (mark_failed 5 "x" (newSession "u" "q")).completed_at ≠ none :=
  reachable_terminal_has_completed_at
    (.failed 5 "x" (.created "u" "q")) (by decide)

/-- The state produced when a retry re-enters `execute_research_task` after
a failed attempt: the PROCESSING write does not clear `completed_at`. -/
def retryReentrySession : Session :=
  toProcessing (mark_failed 5 "boom" (newSession "u1" "q1"))

/-- C8 counterexample: a reachable session state (failed attempt, then the
retry's PROCESSING transition) whose completion timestamp is set while its
status is not terminal — refuting the claimed iff. -/
theorem completed_at_iff_terminal_counterexample :
    Reachable retryReentrySession ∧
    retryReentrySession.completed_at ≠ none ∧
    ¬ (retryReentrySession.status = .COMPLETED ∨
       retryReentrySession.status = .FAILED ∨
       retryReentrySession.status = .CANCELLED) := by
  refine ⟨.processing (.failed 5 "boom" (.created "u1" "q1")), ?_, ?_⟩ <;> decide

/-! ## Continuation Context Builder
(`OpenDeepResearchService.create_continuation_context`, services.py:494-516) -/

/-- The `previous_research` dict passed by the task (tasks.py:47-50): a
`research_brief` and a `final_report` entry, either of which may be absent
(`dict.get` falsiness treats the empty string like absence). -/
structure PreviousResearch where
  research_brief : Option String
  final_report : Option String
deriving DecidableEq, Repr

/-- Python `"\n\n".join`. -/
def joinParts : List String → String
| [] => ""
| [p] => p
| p :: rest => p ++ "\n\n" ++ joinParts rest

/-- Python truthiness of `previous_research.get(key)`. -/
def truthyOpt : Option String → Bool
| none => false
| some s => !(s == "")

/-- `create_continuation_context` (services.py:494-516): emit a brief line
when the brief is truthy; emit a findings line with the report truncated to
its first 1000 characters (plus "..." when longer) when the report is
truthy; join the parts with a blank line. -/
def create_continuation_context (previous_research : PreviousResearch) : String :=
  let parts1 : List String :=
    if truthyOpt previous_research.research_brief then
      ["Previous research brief: " ++ previous_research.research_brief.getD ""]
    else []
  let parts2 : List String :=
    if truthyOpt previous_research.final_report then
      let fr := previous_research.final_report.getD ""
      let report_summary := if fr.length > 1000 then fr.take 1000 ++ "..." else fr
      ["Previous research findings: " ++ report_summary]
    else []
  joinParts (parts1 ++ parts2)

/-- C5: the continuation context builder is a pure function satisfying: a
present non-empty brief contributes the line "Previous research brief: b";
a present non-empty report contributes "Previous research findings: "
followed by the report truncated to 1000 characters with "..." appended
when longer; present lines are joined by a blank line; with neither field
the result is the empty string.  Stated as the full case analysis, which
also yields the containment form of the claim. -/
theorem continuation_context_spec (previous_research : PreviousResearch) :
    (truthyOpt previous_research.research_brief = false →
     truthyOpt previous_research.final_report = false →
     create_continuation_context previous_research = "") ∧
    (∀ b, previous_research.research_brief = some b → b ≠ "" →
     truthyOpt previous_research.final_report = false →
     create_continuation_context previous_research =
       "Previous research brief: " ++ b) ∧
    (∀ fr, truthyOpt previous_research.research_brief = false →
     previous_research.final_report = some fr → fr ≠ "" →
     create_continuation_context previous_research =
       "Previous research findings: " ++
         (if fr.length > 1000 then fr.take 1000 ++ "..." else fr)) ∧
    (∀ b fr, previous_research.research_brief = some b → b ≠ "" →
     previous_research.final_report = some fr → fr ≠ "" →
     create_continuation_context previous_research =
       ("Previous research brief: " ++ b) ++ "\n\n" ++
       ("Previous research findings: " ++
         (if fr.length > 1000 then fr.take 1000 ++ "..." else fr))) := by
  refine ⟨?_, ?_, ?_, ?_⟩
  · intro h1 h2
    unfold create_continuation_context
    rw [h1, h2]
    rfl
  · intro b hb hbne h2
    have htr : truthyOpt previous_research.research_brief = true := by
      rw [hb]
      simpa [truthyOpt] using hbne
    unfold create_continuation_context
    rw [htr, h2, hb]
    rfl
  · intro fr h1 hfr hfrne
    have htr : truthyOpt previous_research.final_report = true := by
      rw [hfr]
      simpa [truthyOpt] using hfrne
    unfold create_continuation_context
    rw [h1, htr, hfr]
    rfl
  · intro b fr hb hbne hfr hfrne
    have htb : truthyOpt previous_research.research_brief = true := by
      rw [hb]
      simpa [truthyOpt] using hbne
    have htf : truthyOpt previous_research.final_report = true := by
      rw [hfr]
      simpa [truthyOpt] using hfrne
    unfold create_continuation_context
    rw [htb, htf, hb, hfr]
    rfl

/-- Concrete instantiation of `continuation_context_spec`: both fields
present gives both lines joined by a blank line; both absent gives "". -/
theorem continuation_context_spec_witness :
    create_continuation_context { research_brief := some "B", final_report := some "S" } =
      ("Previous research brief: " ++ "B") ++ "\n\n" ++
      ("Previous research findings: " ++
        (if "S".length > 1000 then "S".take 1000 ++ "..." else "S")) ∧
    create_continuation_context { research_brief := none, final_report := none } = "" := by
  constructor
  · exact (continuation_context_spec
      { research_brief := some "B", final_report := some "S" }).2.2.2 "B" "S"
      rfl (by decide) rfl (by decide)
  · exact (continuation_context_spec
      { research_brief := none, final_report := none }).1 rfl rfl

/-! ## Cost Accountant (`CostTrackingService`, src/costs/services.py)

Decimal rate literals are embedded as exact rationals; `Decimal`/float
arithmetic in the source is deterministic in the same way, which is all the
claims below depend on. -/

/-- Token usage as returned by trace extraction or the fallback estimator
(`{'input_tokens': ..., 'output_tokens': ..., 'model_usage': ...}`). -/
structure TokenUsage where
  input_tokens : Nat
  output_tokens : Nat
  model_usage : List (String × Nat × Nat)
deriving DecidableEq, Repr

/-- `CostTrackingService.TOKEN_RATES` (costs/services.py:34-50):
provider → model → (input rate, output rate) in USD per token. -/
def TOKEN_RATES : List (String × List (String × ℚ × ℚ)) :=
  [("openai",
    [("gpt-4o", (5 / 1000000, 15 / 1000000)),
     ("gpt-4o-mini", (15 / 100000000, 6 / 10000000)),
     ("gpt-4-turbo", (1 / 100000, 3 / 100000)),
     ("gpt-4", (3 / 100000, 6 / 100000))]),
   ("anthropic",
    [("claude-3-5-sonnet-20241022", (3 / 1000000, 15 / 1000000)),
     ("claude-3-5-haiku-20241022", (25 / 100000000, 125 / 100000000)),
     ("claude-3-opus", (15 / 1000000, 75 / 1000000))]),
   ("google",
    [("gemini-pro", (5 / 10000000, 15 / 10000000)),
     ("gemini-pro-vision", (25 / 100000000, 75 / 100000000))])]

def assocLookup {α : Type} (k : String) : List (String × α) → Option α
| [] => none
| (k2, v) :: rest => if k2 = k then some v else assocLookup k rest

def lookupRates (provider model : String) : Option (ℚ × ℚ) :=
  match assocLookup provider TOKEN_RATES with
  | none => none
  | some models => assocLookup model models

/-- Contiguous-sublist test on character lists. -/
def listHasPart (needle : List Char) : List Char → Bool
| [] => needle == []
| c :: rest => needle.isPrefixOf (c :: rest) || listHasPart needle rest

/-- Python `'needle' in model_name.lower()`. -/
def nameHasPart (needle model_name : String) : Bool :=
  listHasPart needle.toList model_name.toLower.toList

/-- Provider/model parsing in `_calculate_model_cost`
(costs/services.py:266-283). -/
def parseModelName (model_name : String) : String × String :=
  match model_name.splitOn ":" with
  | p :: m :: rest => (p, String.intercalate ":" (m :: rest))
  | _ =>
    if nameHasPart "gpt" model_name then ("openai", model_name)
    else if nameHasPart "claude" model_name then ("anthropic", model_name)
    else if nameHasPart "gemini" model_name then ("google", model_name)
    else ("openai", "gpt-4o")

/-- `CostTrackingService._calculate_model_cost` (costs/services.py:254-299):
unknown provider/model pairs fall back to the OpenAI GPT-4o rates. -/
def calculate_model_cost (model_name : String) (input_tokens output_tokens : Nat) :
    String × ℚ :=
  let pm := parseModelName model_name
  match lookupRates pm.1 pm.2 with
  | some r => (pm.1, (input_tokens : ℚ) * r.1 + (output_tokens : ℚ) * r.2)
  | none =>
    (pm.1, (input_tokens : ℚ) * (5 / 1000000) + (output_tokens : ℚ) * (15 / 1000000))

/-- The `if provider in provider_costs: += else: =` accumulation
(costs/services.py:239-242). -/
def addProviderCost (provider : String) (c : ℚ) :
    List (String × ℚ) → List (String × ℚ)
| [] => [(provider, c)]
| (p, v) :: rest =>
  if p = provider then (p, v + c) :: rest
  else (p, v) :: addProviderCost provider c rest

def accumulateModelCosts : List (String × Nat × Nat) → List (String × ℚ) →
    List (String × ℚ)
| [], acc => acc
| (m, i, o) :: rest, acc =>
  let pc := calculate_model_cost m i o
  accumulateModelCosts rest (addProviderCost pc.1 pc.2 acc)

/-- `CostTrackingService._calculate_provider_costs`
(costs/services.py:222-252): per-model accumulation when model usage is
known, else a single OpenAI GPT-4o bucket when any tokens were used. -/
def calculate_provider_costs (token_usage : TokenUsage) : List (String × ℚ) :=
  match token_usage.model_usage with
  | [] =>
    if token_usage.input_tokens > 0 || token_usage.output_tokens > 0 then
      let pc := calculate_model_cost "openai:gpt-4o"
                  token_usage.input_tokens token_usage.output_tokens
      [("openai", pc.2)]
    else []
  | mu => accumulateModelCosts mu []

/-- `CostTrackingService._estimate_token_usage_fallback`
(costs/services.py:188-220): ~4 characters per token, plus a fixed
2000-character system-prompt allowance on the input side; both estimates
are floored at 1. -/
def estimate_token_usage_fallback (session : Session) : TokenUsage :=
  let query_length := session.query.length
  let report_length :=
    match session.report with
    | some rep => rep.final_report.length
    | none => 0
  { input_tokens := max 1 ((query_length + 2000) / 4),
    output_tokens := max 1 (report_length / 4),
    model_usage := [] }

/-- `ResearchCost` (models.py:185-243), restricted to the fields the Cost
Accountant writes. -/
structure ResearchCost where
  input_tokens : Nat
  output_tokens : Nat
  total_tokens : Nat
  estimated_cost : ℚ
  provider_costs : List (String × ℚ)
  currency : String
deriving DecidableEq, Repr

/-- `ResearchCost.update_totals` (models.py:240-243). -/
def update_totals (c : ResearchCost) : ResearchCost :=
  { c with total_tokens := c.input_tokens + c.output_tokens }

def CostStore : Type := List (String × ResearchCost)

def lookupCost (session_id : String) : CostStore → Option ResearchCost
| [] => none
| (k, c) :: rest => if k = session_id then some c else lookupCost session_id rest

/-- Django `update_or_create(session=..., defaults=...)`: replace the
existing record keyed by the session, or append a new one. -/
def update_or_create (session_id : String) (c : ResearchCost) : CostStore → CostStore
| [] => [(session_id, c)]
| (k, old) :: rest =>
  if k = session_id then (k, c) :: rest
  else (k, old) :: update_or_create session_id c rest

def countKey (session_id : String) : CostStore → Nat
| [] => 0
| (k, _) :: rest => (if k = session_id then 1 else 0) + countKey session_id rest

/-- `CostTrackingService.track_research_costs` (costs/services.py:75-122).
`clientAvailable` models `self.langsmith_client` being configured, and
`traceResult` the observable outcome of `_get_token_usage_from_trace`
(which already maps fetch failures to zero usage).  The defaults passed to
`update_or_create` set `total_tokens` to the sum of the two token fields. -/
def computedCost (clientAvailable : Bool) (traceResult : TokenUsage)
    (trace_id : Option String) (session : Session) : ResearchCost :=
  let token_usage :=
    if clientAvailable && trace_id.isSome then traceResult
    else estimate_token_usage_fallback session
  let provider_costs := calculate_provider_costs token_usage
  let total_cost := (provider_costs.map Prod.snd).sum
  { input_tokens := token_usage.input_tokens,
    output_tokens := token_usage.output_tokens,
    total_tokens := token_usage.input_tokens + token_usage.output_tokens,
    estimated_cost := total_cost,
    provider_costs := provider_costs,
    currency := "USD" }

def track_research_costs (clientAvailable : Bool) (traceResult : TokenUsage)
    (sessions : SessionStore) (costs : CostStore)
    (trace_id : Option String) (session_id : String) :
    Option ResearchCost × CostStore :=
  match sessions session_id with
  | none => (none, costs)
  | some session =>
    (some (computedCost clientAvailable traceResult trace_id session),
     update_or_create session_id
       (computedCost clientAvailable traceResult trace_id session) costs)

/-- The zero-valued fallback record the task creates when cost tracking
returns nothing (`ResearchCost.objects.get_or_create`, tasks.py:141-148);
unlisted fields take the model defaults (total_tokens 0, empty provider
costs, USD). -/
def minimal_cost_fallback (costs : CostStore) (session_id : String) : CostStore :=
  match lookupCost session_id costs with
  | some _ => costs
  | none =>
    update_or_create session_id
      { input_tokens := 0, output_tokens := 0, total_tokens := 0,
        estimated_cost := 0, provider_costs := [], currency := "USD" } costs

theorem lookup_update_or_create (session_id : String) (c : ResearchCost) :
    (costs : CostStore) →
    lookupCost session_id (update_or_create session_id c costs) = some c
| [] => by simp [update_or_create, lookupCost]
| (k, old) :: rest => by
    by_cases hk : k = session_id
    · subst hk
      simp [update_or_create, lookupCost]
    · have ih := lookup_update_or_create session_id c rest
      simp [update_or_create, lookupCost, hk, ih]

theorem update_or_create_idem (session_id : String) (c : ResearchCost) :
    (costs : CostStore) →
    update_or_create session_id c (update_or_create session_id c costs) =
      update_or_create session_id c costs
| [] => by simp [update_or_create]
| (k, old) :: rest => by
    by_cases hk : k = session_id
    · subst hk
      simp [update_or_create]
    · have ih := update_or_create_idem session_id c rest
      simp [update_or_create, hk, ih]

theorem countKey_update_or_create (session_id : String) (c : ResearchCost) :
    (costs : CostStore) → countKey session_id costs ≤ 1 →
    countKey session_id (update_or_create session_id c costs) = 1
| [], _ => by simp [update_or_create, countKey]
| (k, old) :: rest, h => by
    by_cases hk : k = session_id
    · subst hk
      have h2 : 1 + countKey k rest ≤ 1 := by simpa [countKey] using h
      have hz : countKey k rest = 0 := by omega
      simp [update_or_create, countKey, hz]
    · have hrest : countKey session_id rest ≤ 1 := by
        simp only [countKey, if_neg hk] at h
        omega
      have ih := countKey_update_or_create session_id c rest hrest
      simp [update_or_create, countKey, hk, ih]

theorem track_research_costs_found (clientAvailable : Bool)
    (traceResult : TokenUsage) (sessions : SessionStore) (costs : CostStore)
    (trace_id : Option String) (session_id : String) (s : Session)
    (hs : sessions session_id = some s) :
    track_research_costs clientAvailable traceResult sessions costs trace_id
        session_id =
      (some (computedCost clientAvailable traceResult trace_id s),
       update_or_create session_id
         (computedCost clientAvailable traceResult trace_id s) costs) := by
  unfold track_research_costs
  rw [hs]

/-- C2 (amended): the fallback estimator returns
`input_tokens = max 1 ((len(query) + 2000) / 4)` (integer division) and
`output_tokens = max 1 (len(final_report) / 4)` when the session has a
report; when the session has no report the output estimate is 1 — not 0. -/
theorem estimate_fallback_spec (session : Session) :
    (estimate_token_usage_fallback session).input_tokens =
      max 1 ((session.query.length + 2000) / 4) ∧
    (∀ rep, session.report = some rep →
      (estimate_token_usage_fallback session).output_tokens =
        max 1 (rep.final_report.length / 4)) ∧
    (session.report = none →
      (estimate_token_usage_fallback session).output_tokens = 1) := by
  refine ⟨rfl, ?_, ?_⟩
  · intro rep hrep
    unfold estimate_token_usage_fallback
    rw [hrep]
  · intro hnone
    unfold estimate_token_usage_fallback
    rw [hnone]
    rfl

/-- C2 counterexample: for a session with no report the fallback estimator
returns `output_tokens = 1` (`max(1, 0 // 4)`, costs/services.py:212), not
the 0 the claim requires. -/
theorem estimate_fallback_no_report_counterexample :
    (newSession "u1" "What is entropy?").report = none ∧
    (estimate_token_usage_fallback (newSession "u1" "What is entropy?")).output_tokens
      ≠ 0 := by
  constructor
  · rfl
  · decide

/-- Concrete instantiation of `estimate_fallback_spec` at a completed
session with query "qq" and final report "R". -/
theorem estimate_fallback_spec_witness :
    (estimate_token_usage_fallback
        (completeSuccess 1 "R" "B" [] [] [] none (newSession "u" "qq"))).input_tokens =
      max 1 (("qq".length + 2000) / 4) ∧
    (estimate_token_usage_fallback
        (completeSuccess 1 "R" "B" [] [] [] none (newSession "u" "qq"))).output_tokens =
      max 1 ("R".length / 4) := by
  constructor
  · exact (estimate_fallback_spec
      (completeSuccess 1 "R" "B" [] [] [] none (newSession "u" "qq"))).1
  · exact (estimate_fallback_spec
      (completeSuccess 1 "R" "B" [] [] [] none (newSession "u" "qq"))).2.1
      { final_report := "R", notes := [] } rfl

/-- C6: after every Cost write the Cost Accountant performs — the
create-or-update in `track_research_costs`, a `ResearchCost.update_totals`
call, and the zero-valued fallback record — the stored `total_tokens`
equals `input_tokens + output_tokens`. -/
theorem cost_total_tokens_invariant (clientAvailable : Bool)
    (traceResult : TokenUsage) (sessions : SessionStore) (costs : CostStore)
    (trace_id : Option String) (session_id : String) :
    (∀ cost costs2,
      track_research_costs clientAvailable traceResult sessions costs trace_id
          session_id = (some cost, costs2) →
      cost.total_tokens = cost.input_tokens + cost.output_tokens ∧
      lookupCost session_id costs2 = some cost) ∧
    (∀ c : ResearchCost, (update_totals c).total_tokens =
      (update_totals c).input_tokens + (update_totals c).output_tokens) ∧
    (lookupCost session_id costs = none →
      ∃ c, lookupCost session_id (minimal_cost_fallback costs session_id) = some c ∧
        c.total_tokens = c.input_tokens + c.output_tokens) := by
  refine ⟨?_, fun c => rfl, ?_⟩
  · intro cost costs2 heq
    cases hsess : sessions session_id with
    | none =>
      unfold track_research_costs at heq
      rw [hsess] at heq
      exact absurd (congrArg Prod.fst heq) (by simp)
    | some s =>
      rw [track_research_costs_found clientAvailable traceResult sessions costs
            trace_id session_id s hsess] at heq
      have h1 := congrArg Prod.fst heq
      have h2 := congrArg Prod.snd heq
      simp only at h1 h2
      have hc : computedCost clientAvailable traceResult trace_id s = cost :=
        Option.some.inj h1
      subst hc
      exact ⟨rfl, by rw [← h2]; exact lookup_update_or_create _ _ _⟩
  · intro hnone
    unfold minimal_cost_fallback
    rw [hnone]
    exact ⟨_, lookup_update_or_create _ _ _, rfl⟩

/-- Concrete instantiation of `cost_total_tokens_invariant`: a one-session
store, no trace data, empty cost store. -/
theorem cost_total_tokens_invariant_witness :
    (computedCost false { input_tokens := 0, output_tokens := 0, model_usage := [] }
        none (newSession "u" "q")).total_tokens =
      (computedCost false { input_tokens := 0, output_tokens := 0, model_usage := [] }
        none (newSession "u" "q")).input_tokens +
      (computedCost false { input_tokens := 0, output_tokens := 0, model_usage := [] }
        none (newSession "u" "q")).output_tokens ∧
    ∃ c, lookupCost "s1" (minimal_cost_fallback [] "s1") = some c ∧
      c.total_tokens = c.input_tokens + c.output_tokens := by
  constructor
  · exact ((cost_total_tokens_invariant false
      { input_tokens := 0, output_tokens := 0, model_usage := [] }
      (fun k => if k = "s1" then some (newSession "u" "q") else none) [] none "s1").1
      (computedCost false { input_tokens := 0, output_tokens := 0, model_usage := [] }
        none (newSession "u" "q"))
      (update_or_create "s1"
        (computedCost false { input_tokens := 0, output_tokens := 0, model_usage := [] }
          none (newSession "u" "q")) [])
      (track_research_costs_found false
        { input_tokens := 0, output_tokens := 0, model_usage := [] }
        (fun k => if k = "s1" then some (newSession "u" "q") else none) [] none "s1"
        (newSession "u" "q") rfl)).1
  · exact (cost_total_tokens_invariant false
      { input_tokens := 0, output_tokens := 0, model_usage := [] }
      (fun k => if k = "s1" then some (newSession "u" "q") else none) [] none "s1").2.2
      rfl

/-- C7: accounting twice for the same session with unchanged inputs is
idempotent — the second call returns the same record and leaves the cost
store unchanged, and the store holds exactly one record for the session. -/
theorem track_research_costs_idempotent (clientAvailable : Bool)
    (traceResult : TokenUsage) (sessions : SessionStore) (costs : CostStore)
    (trace_id : Option String) (session_id : String) (s : Session)
    (hs : sessions session_id = some s)
    (hcount : countKey session_id costs ≤ 1) :
    track_research_costs clientAvailable traceResult sessions
        (track_research_costs clientAvailable traceResult sessions costs trace_id
          session_id).2 trace_id session_id =
      track_research_costs clientAvailable traceResult sessions costs trace_id
        session_id ∧
    countKey session_id
        (track_research_costs clientAvailable traceResult sessions costs trace_id
          session_id).2 = 1 := by
  rw [track_research_costs_found clientAvailable traceResult sessions costs
        trace_id session_id s hs]
  constructor
  · rw [track_research_costs_found clientAvailable traceResult sessions
        (update_or_create session_id
          (computedCost clientAvailable traceResult trace_id s) costs)
        trace_id session_id s hs]
    rw [update_or_create_idem]
  · exact countKey_update_or_create _ _ _ hcount

/-- Concrete instantiation of `track_research_costs_idempotent`: one
session, empty cost store, fallback estimation (no trace client). -/
theorem track_research_costs_idempotent_witness :
    track_research_costs false
        { input_tokens := 0, output_tokens := 0, model_usage := [] }
        (fun k => if k = "s1" then some (newSession "u" "q") else none)
        (track_research_costs false
          { input_tokens := 0, output_tokens := 0, model_usage := [] }
          (fun k => if k = "s1" then some (newSession "u" "q") else none) [] none
          "s1").2 none "s1" =
      track_research_costs false
        { input_tokens := 0, output_tokens := 0, model_usage := [] }
        (fun k => if k = "s1" then some (newSession "u" "q") else none) [] none
        "s1" ∧
    countKey "s1"
        (track_research_costs false
          { input_tokens := 0, output_tokens := 0, model_usage := [] }
          (fun k => if k = "s1" then some (newSession "u" "q") else none) [] none
          "s1").2 = 1 :=
  track_research_costs_idempotent false
    { input_tokens := 0, output_tokens := 0, model_usage := [] }
    (fun k => if k = "s1" then some (newSession "u" "q") else none) [] none "s1"
    (newSession "u" "q") rfl (by decide)

/-! ## Ancestor lineage (`ResearchSession.get_research_lineage`,
models.py:88-95) -/

/-- Parent-pointer view of the session graph: sessions are numbered, and
`parent i` is session i's `parent_session`. -/
def ParentMap : Type := Nat → Option Nat

/-- The `while current:` loop of `get_research_lineage` with explicit fuel:
`none` means the loop has not exited after `fuel` iterations.  The
accumulated list is reversed on exit, as in the source. -/
def lineageLoop (parent : ParentMap) : Nat → Option Nat → List Nat → Option (List Nat)
| _, none, lineage => some lineage.reverse
| 0, some _, _ => none
| fuel + 1, some current, lineage =>
  lineageLoop parent fuel (parent current) (lineage ++ [current])

def get_research_lineage (parent : ParentMap) (fuel start : Nat) :
    Option (List Nat) :=
  lineageLoop parent fuel (some start) []

/-- An acyclic chain of continuation sessions: session 0 is the root and
session i+1 has parent i. -/
def chainParent : ParentMap := fun i => if i = 0 then none else some (i - 1)

theorem lineageLoop_chain : (k : Nat) → ∀ (fuel : Nat) (acc : List Nat),
    k + 1 ≤ fuel →
    lineageLoop chainParent fuel (some k) acc =
      some (List.range (k + 1) ++ acc.reverse)
| 0 => by
    intro fuel acc hf
    cases fuel with
    | zero => omega
    | succ f =>
      show lineageLoop chainParent f (chainParent 0) (acc ++ [0]) = _
      have hr : List.range 1 = [0] := rfl
      simp [chainParent, lineageLoop, hr]
| k + 1 => by
    intro fuel acc hf
    cases fuel with
    | zero => omega
    | succ f =>
      have hk : chainParent (k + 1) = some k := by simp [chainParent]
      show lineageLoop chainParent f (chainParent (k + 1)) (acc ++ [k + 1]) = _
      rw [hk, lineageLoop_chain k f (acc ++ [k + 1]) (by omega)]
      simp [List.range_succ]

theorem cycleLoop_none : ∀ (fuel : Nat) (acc : List Nat),
    lineageLoop (fun _ => some 0) fuel (some 0) acc = none
| 0, _ => rfl
| fuel + 1, acc => cycleLoop_none fuel (acc ++ [0])

/-- C10 (amended): for an acyclic chain of N continuation sessions the
traversal terminates (fuel N suffices) and returns exactly the N sessions
in root-to-leaf order; but the code has no cycle defense (no depth cap, no
repeat detection), so on a cyclic parent chain the `while current:` loop
never exits — no amount of fuel makes it return. -/
theorem lineage_chain_and_cycle (N : Nat) (hN : 1 ≤ N) :
    get_research_lineage chainParent N (N - 1) = some (List.range N) ∧
    (∀ fuel acc, lineageLoop (fun _ => some 0) fuel (some 0) acc = none) := by
  constructor
  · unfold get_research_lineage
    have h := lineageLoop_chain (N - 1) N [] (by omega)
    rw [h]
    have : N - 1 + 1 = N := by omega
    rw [this]
    simp
  · exact cycleLoop_none

/-- C10 counterexample: a session that is its own parent makes
`get_research_lineage` loop forever — the claim that the traversal
terminates for every session, including cyclic parent chains, is false of
the code. -/
theorem lineage_cycle_counterexample :
    ¬ ∃ (fuel : Nat) (res : List Nat),
        get_research_lineage (fun _ => some 0) fuel 0 = some res := by
  rintro ⟨fuel, res, h⟩
  unfold get_research_lineage at h
  rw [cycleLoop_none] at h
  exact absurd h (by simp)

/-- Concrete instantiation of `lineage_chain_and_cycle` at a chain of 3
sessions. -/
theorem lineage_chain_witness :
    get_research_lineage chainParent 3 2 = some [0, 1, 2] := by
  have h := (lineage_chain_and_cycle 3 (by decide)).1
  simpa [List.range] using h

end AIResearch
